import Mathlib

/-!
Verification of the client-side image converter (src/script.js).

The script is a single event-driven file: a loader (loadFile) that validates
the declared media type and reads the file into a preview image, and a
converter (the convertBtn click handler) that resolves output dimensions,
normalizes quality, draws to a canvas, encodes via toBlob and triggers a
download with a derived filename.

The embedding below is a shallow one: every JavaScript number occurring in
the relevant code paths is an integer value, so integers are modelled by Int
and Nat and the one fractional computation (the rounded aspect-ratio height
and the encoder quality fraction) by exact rationals.  Asynchronous platform
callbacks (file read, auxiliary image load, drawImage, toBlob) are modelled
by oracle values passed to the function, and the DOM state read by a handler
is gathered into an explicit input structure.
-/

namespace ImageConverter

/-- A user-supplied file: declared media type and original filename
(script.js reads only these two properties of the File object). -/
structure JsFile where
  type : String
  name : String
deriving DecidableEq

/-- Line 98, `parseInt(widthInput.value, 10) || null`: the parse result is
an integer or NaN (modelled as none); the JavaScript or-with-null further
maps the falsy value 0 to null. -/
def widthOrNull (pw : Option Int) : Option Int :=
  match pw with
  | some w => if w = 0 then none else some w
  | none => none

/-- JavaScript Math.round on a nonnegative value: floor of x + 1/2
(round half up, which on nonnegative inputs is round half away from zero). -/
def jsRound (q : ℚ) : ℤ := ⌊q + 1/2⌋

/-- Lines 106-111: output dimension resolution.  Starting from the natural
dimensions, if the parsed requested width is truthy, positive and strictly
below the natural width, the target width becomes the requested width and
the target height becomes Math.round((naturalH / naturalW) * targetWidth). -/
def resolveDims (requestedWidth : Option Int) (naturalW naturalH : ℕ) : ℤ × ℤ :=
  match widthOrNull requestedWidth with
  | some rw =>
      if 0 < rw ∧ rw < (naturalW : ℤ) then
        (rw, jsRound ((naturalH : ℚ) / (naturalW : ℚ) * (rw : ℚ)))
      else ((naturalW : ℤ), (naturalH : ℤ))
  | none => ((naturalW : ℤ), (naturalH : ℤ))

/-- Lines 93-95: quality normalization.  parseInt result is an integer or
NaN (none); NaN or a value below 1 becomes 90, then values above 100 are
capped at 100. -/
def normQuality (pq : Option Int) : Int :=
  let q : Int :=
    match pq with
    | none => 90
    | some q => if q < 1 then 90 else q
  if q > 100 then 100 else q

/-- Line 130: `Math.max(1, Math.min(100, quality)) / 100`, the value handed
to canvas.toBlob. -/
def blobQuality (q : Int) : ℚ := ((max 1 (min 100 q) : Int) : ℚ) / 100

/-- Lines 197-204: map the output MIME type to a file extension. -/
def mimeToExt (mime : String) : String :=
  if mime = "image/jpeg" then "jpg"
  else if mime = "image/png" then "png"
  else if mime = "image/webp" then "webp"
  else "img"

/-- The regex replace of line 171 on a character list: remove a trailing
dot followed by one or more characters none of which is a dot or a slash;
if no such suffix exists the list is unchanged. -/
def stripExtList (cs : List Char) : List Char :=
  let r := cs.reverse
  let tail := r.takeWhile (fun c => c != '.' && c != '/')
  match r.drop tail.length with
  | '.' :: pre => if tail.isEmpty then cs else pre.reverse
  | _ => cs

/-- Line 171: the replace of the trailing-extension regex by the empty
string on the filename. -/
def stripExt (s : String) : String := ⟨stripExtList s.data⟩

/-- Lines 170-172: derived output filename.  The base name is the original
filename with its last extension stripped when a current file with a truthy
(nonempty) name exists, and the fixed fallback otherwise; the extension
comes from the output MIME type. -/
def deriveFilename (currentFile : Option JsFile) (outType : String) : String :=
  let ext := mimeToExt outType
  let base :=
    match currentFile with
    | some f => if f.name = "" then "converted-image" else stripExt f.name
    | none => "converted-image"
  base ++ "." ++ ext

/-- Line 92: formatSelect.value coalesced with image/png (the empty string
is the only falsy string). -/
def resolveOutType (v : String) : String := if v = "" then "image/png" else v

/-- Line 99-100, `previewImg.naturalWidth || imgElement.naturalWidth`:
JavaScript or on numbers with 0 the falsy value. -/
def jsOrNat (a b : ℕ) : ℕ := if a = 0 then b else a

/-- The error exits of the convertBtn click handler, in source order:
no image chosen (lines 87-90), natural dimensions unavailable (lines
101-104), ctx.drawImage threw (lines 123-127), toBlob produced a null blob
(lines 135-138), and the auxiliary image failed to load (line 163). -/
inductive ConvError
  | noImage
  | notReady
  | renderFailure
  | encodeFailure
  | tempLoadFailure
deriving DecidableEq

/-- The user-visible error strings of the handler (for renderFailure the
script appends the thrown error after this prefix). -/
def errorMessage : ConvError → String
  | .noImage => "Choose or drop an image first."
  | .notReady => "Image not ready yet. Wait a moment and try again."
  | .renderFailure => "Error drawing image to canvas: "
  | .encodeFailure => "Conversion failed (blob is empty)."
  | .tempLoadFailure => "Failed to load image for conversion."

/-- A successful conversion, as observed through triggerDownload (lines
169-182): the MIME type handed to toBlob, the canvas dimensions, the
fractional quality handed to toBlob, the derived download filename and the
blob size.  An artifact is produced exactly when a download is triggered. -/
structure Artifact where
  mime : String
  width : ℤ
  height : ℤ
  quality : ℚ
  filename : String
  size : ℕ
deriving DecidableEq

/-- The DOM and module state read by the convertBtn click handler.
imgElement (line 21) never receives a src in the script, so in every real
run its natural dimensions are 0; they are kept as fields for fidelity to
the disjunctions on lines 99-100. -/
structure ConvertInputs where
  currentFile : Option JsFile
  previewSrc : String
  formatValue : String
  qualityRaw : Option Int
  widthRaw : Option Int
  previewNaturalW : ℕ
  previewNaturalH : ℕ
  imgNaturalW : ℕ
  imgNaturalH : ℕ
  previewComplete : Bool
deriving DecidableEq

/-- Outcomes of the asynchronous platform steps the handler depends on:
whether ctx.drawImage succeeds, the blob size toBlob delivers (none models
a null blob), and whether the auxiliary Image of lines 157-164 fires onload
(true) or onerror (false). -/
structure Oracles where
  drawOk : Bool
  encodeResult : Option ℕ
  tempLoadOk : Bool
deriving DecidableEq

/-- Lines 121-151 and 169-182: draw the preview into the canvas (already
sized to the target dimensions) and encode it; a null blob aborts with the
empty-blob error, otherwise the download is triggered. -/
def drawAndEncode (currentFile : Option JsFile) (orc : Oracles)
    (outType : String) (tw th : ℤ) (q : ℚ) : Except ConvError Artifact :=
  if orc.drawOk then
    match orc.encodeResult with
    | some sz => .ok ⟨outType, tw, th, q, deriveFilename currentFile outType, sz⟩
    | none => .error ConvError.encodeFailure
  else .error ConvError.renderFailure

/-- Lines 86-184: the convertBtn click handler.  Returns the outcome
together with the number of auxiliary Image loads performed (the single
retry path of lines 156-165). -/
def convert (inp : ConvertInputs) (orc : Oracles) :
    Except ConvError Artifact × ℕ :=
  if inp.currentFile = none ∧ inp.previewSrc = "" then
    (.error ConvError.noImage, 0)
  else
    let outType := resolveOutType inp.formatValue
    let quality := normQuality inp.qualityRaw
    let naturalW := jsOrNat inp.previewNaturalW inp.imgNaturalW
    let naturalH := jsOrNat inp.previewNaturalH inp.imgNaturalH
    if naturalW = 0 ∨ naturalH = 0 then
      (.error ConvError.notReady, 0)
    else
      let dims := resolveDims inp.widthRaw naturalW naturalH
      let bq := blobQuality quality
      if inp.previewComplete = true ∧ inp.previewNaturalW ≠ 0 then
        (drawAndEncode inp.currentFile orc outType dims.1 dims.2 bq, 0)
      else if orc.tempLoadOk then
        (drawAndEncode inp.currentFile orc outType dims.1 dims.2 bq, 1)
      else
        (.error ConvError.tempLoadFailure, 1)

/-- Outcome of the asynchronous FileReader read (lines 65-73): onload with
the data URL, or onerror. -/
inductive ReadOutcome
  | success (dataUrl : String)
  | failure
deriving DecidableEq

/-- The two loader failures of lines 59-74. -/
inductive LoadError
  | invalidInputKind
  | readFailure
deriving DecidableEq

/-- The module-level loader state: currentFile (line 20) and the preview
image source (previewImg.src). -/
structure LoaderState where
  currentFile : Option JsFile
  previewSrc : String
deriving DecidableEq

/-- Line 60: the startsWith check on the declared media type, modelled on
the character lists of the strings (the semantics of String.startsWith). -/
def typeIsImage (t : String) : Bool := "image/".data.isPrefixOf t.data

/-- Lines 59-74, loadFile: a non-image declared type is rejected before any
state changes; otherwise currentFile is assigned at once (line 64) and the
asynchronous read either sets the preview source (line 67) or reports a
read failure leaving the preview as it was. -/
def loadFile (st : LoaderState) (file : JsFile) (read : ReadOutcome) :
    LoaderState × Option LoadError :=
  if typeIsImage file.type then
    let st1 : LoaderState := { st with currentFile := some file }
    match read with
    | .success url => ({ st1 with previewSrc := url }, none)
    | .failure => (st1, some LoadError.readFailure)
  else
    (st, some LoadError.invalidInputKind)

/-! ### Helper lemmas -/

/-- Characterization of the two-step quality normalization. -/
lemma normQuality_some (q : Int) :
    normQuality (some q) = if q < 1 then 90 else if q > 100 then 100 else q := by
  simp only [normQuality]
  split_ifs <;> omega

/-- NaN or absent quality normalizes to 90. -/
lemma normQuality_none : normQuality none = 90 := rfl

/-- The normalized quality always lands in the interval from 1 to 100. -/
lemma normQuality_mem (pq : Option Int) :
    1 ≤ normQuality pq ∧ normQuality pq ≤ 100 := by
  cases pq with
  | none => simp [normQuality_none]
  | some q =>
      rw [normQuality_some]
      split_ifs <;> omega

/-! ### Theorems for the claims -/

/-- C1: the resolved target width is the requested width exactly when it is
present, positive and strictly below the natural width, and the natural
width otherwise (absent, NaN, zero, negative or at least the natural
width); on a downscale the target height is the rounding of
naturalHeight * targetWidth / naturalWidth, and otherwise the natural
dimensions pass through unchanged.  The statement is the spec-side formula;
the code computes (naturalH / naturalW) * targetWidth, equal over the exact
rationals of the model. -/
theorem C1_dimension_resolution (pw : Option Int) (nw nh : ℕ) :
    resolveDims pw nw nh =
      match pw with
      | some w =>
          if 0 < w ∧ w < (nw : ℤ) then
            (w, jsRound (((nh : ℚ) * (w : ℚ)) / (nw : ℚ)))
          else ((nw : ℤ), (nh : ℤ))
      | none => ((nw : ℤ), (nh : ℤ)) := by
  cases pw with
  | none => rfl
  | some w =>
      by_cases hw : w = 0
      · subst hw
        simp [resolveDims, widthOrNull]
      · simp only [resolveDims, widthOrNull, if_neg hw]
        by_cases hc : 0 < w ∧ w < (nw : ℤ)
        · rw [if_pos hc, if_pos hc, div_mul_eq_mul_div]
        · rw [if_neg hc, if_neg hc]

/-- C10: a valid downscale can resolve to height zero: with natural
dimensions 1000 by 1 and requested width 400, the target is 400 by 0. -/
theorem C10_zero_height_possible :
    (0 : ℤ) < 400 ∧ (400 : ℤ) < 1000 ∧
    resolveDims (some 400) 1000 1 = (400, 0) := by
  refine ⟨by norm_num, by norm_num, ?_⟩
  have h1 : widthOrNull (some 400) = some 400 := rfl
  simp only [resolveDims, h1]
  rw [if_pos (by norm_num)]
  have h2 : jsRound ((2 : ℚ) / 5) = 0 := by
    unfold jsRound
    rw [show (2 : ℚ) / 5 + 1 / 2 = 9 / 10 by norm_num, Int.floor_eq_zero_iff,
      Set.mem_Ico]
    constructor <;> norm_num
  norm_num [h2]

/-- C2 counterexample: the claim says a numeric quality below 1 normalizes
to the nearest bound 1; the code instead defaults it to 90, as quality
input 0 shows. -/
theorem C2_quality_counterexample :
    normQuality (some 0) = 90 ∧ normQuality (some 0) ≠ 1 := by
  constructor <;> decide

/-- C2 (amended): an integer quality in the interval from 1 to 100 passes
through; a value above 100 normalizes to 100; a value below 1, like an
absent or non-numeric one, defaults to 90; and the value handed to the
encoder is the normalized quality divided by 100. -/
theorem C2_quality_normalization (pq : Option Int) :
    (∀ q : Int, pq = some q → 1 ≤ q → q ≤ 100 → normQuality pq = q) ∧
    (∀ q : Int, pq = some q → 100 < q → normQuality pq = 100) ∧
    (∀ q : Int, pq = some q → q < 1 → normQuality pq = 90) ∧
    (pq = none → normQuality pq = 90) ∧
    blobQuality (normQuality pq) = ((normQuality pq : Int) : ℚ) / 100 := by
  obtain ⟨hlo, hhi⟩ := normQuality_mem pq
  refine ⟨?_, ?_, ?_, ?_, ?_⟩
  · rintro q rfl h1 h2
    rw [normQuality_some, if_neg (by omega), if_neg (by omega)]
  · rintro q rfl h
    rw [normQuality_some, if_neg (by omega), if_pos (by omega)]
  · rintro q rfl h
    rw [normQuality_some, if_pos h]
  · rintro rfl
    exact normQuality_none
  · unfold blobQuality
    rw [min_eq_right hhi, max_eq_right hlo]

/-- Witness for C2: concrete runs of the amended normalization at 50, 150,
0 and NaN. -/
theorem C2_quality_normalization_witness :
    normQuality (some 50) = 50 ∧ normQuality (some 150) = 100 ∧
    normQuality (some 0) = 90 ∧ normQuality none = 90 ∧
    blobQuality (normQuality (some 50)) = ((normQuality (some 50) : Int) : ℚ) / 100 :=
  ⟨(C2_quality_normalization (some 50)).1 50 rfl (by decide) (by decide),
   (C2_quality_normalization (some 150)).2.1 150 rfl (by decide),
   (C2_quality_normalization (some 0)).2.2.1 0 rfl (by decide),
   (C2_quality_normalization none).2.2.2.1 rfl,
   (C2_quality_normalization (some 50)).2.2.2.2⟩

/-- C3 counterexample: with an old file and preview loaded, loading a new
image file whose read fails reports the read failure but has already
replaced currentFile with the new file, so the prior state is not left
untouched. -/
theorem C3_readfailure_counterexample :
    (loadFile ⟨some ⟨"image/png", "old.png"⟩, "data:old"⟩
        ⟨"image/jpeg", "new.jpg"⟩ ReadOutcome.failure).2
      = some LoadError.readFailure ∧
    (loadFile ⟨some ⟨"image/png", "old.png"⟩, "data:old"⟩
        ⟨"image/jpeg", "new.jpg"⟩ ReadOutcome.failure).1
      ≠ ⟨some ⟨"image/png", "old.png"⟩, "data:old"⟩ := by
  constructor <;> decide

/-- C3 (amended): a load that fails with InvalidInputKind happens before
any state is replaced, leaving file and preview untouched; a load that
fails with ReadFailure leaves the preview untouched but has already
replaced currentFile with the incoming file. -/
theorem C3_load_failure_state (st : LoaderState) (f : JsFile) (r : ReadOutcome) :
    (typeIsImage f.type = false →
        loadFile st f r = (st, some LoadError.invalidInputKind)) ∧
    (typeIsImage f.type = true → r = ReadOutcome.failure →
        loadFile st f r = (⟨some f, st.previewSrc⟩, some LoadError.readFailure)) := by
  constructor
  · intro h
    simp [loadFile, h]
  · rintro h rfl
    simp [loadFile, h]

/-- Witness for C3: a text file is rejected with no state change, and an
image file whose read fails has already replaced currentFile. -/
theorem C3_load_failure_state_witness :
    loadFile ⟨none, ""⟩ ⟨"text/plain", "a.txt"⟩ ReadOutcome.failure
      = (⟨none, ""⟩, some LoadError.invalidInputKind) ∧
    loadFile ⟨none, "p"⟩ ⟨"image/png", "b.png"⟩ ReadOutcome.failure
      = (⟨some ⟨"image/png", "b.png"⟩, "p"⟩, some LoadError.readFailure) :=
  ⟨(C3_load_failure_state ⟨none, ""⟩ ⟨"text/plain", "a.txt"⟩
        ReadOutcome.failure).1 (by decide),
   (C3_load_failure_state ⟨none, "p"⟩ ⟨"image/png", "b.png"⟩
        ReadOutcome.failure).2 (by decide) rfl⟩

/-- Fields of an artifact produced by a successful draw-and-encode step:
the MIME type handed to toBlob is also the one the filename extension is
derived from. -/
lemma drawAndEncode_ok_fields (cf : Option JsFile) (orc : Oracles)
    (outType : String) (tw th : ℤ) (q : ℚ) (a : Artifact)
    (h : drawAndEncode cf orc outType tw th q = Except.ok a) :
    a.mime = outType ∧ a.filename = deriveFilename cf outType := by
  unfold drawAndEncode at h
  split_ifs at h
  · cases he : orc.encodeResult with
    | some sz =>
        rw [he] at h
        simp only [Except.ok.injEq] at h
        subst h
        exact ⟨rfl, rfl⟩
    | none =>
        rw [he] at h
        simp at h

/-- Any successful conversion carries the resolved output type as its MIME
type and a filename derived from it. -/
lemma convert_ok_fields (inp : ConvertInputs) (orc : Oracles) (a : Artifact)
    (n : ℕ) (h : convert inp orc = (Except.ok a, n)) :
    a.mime = resolveOutType inp.formatValue ∧
    a.filename = deriveFilename inp.currentFile (resolveOutType inp.formatValue) := by
  simp only [convert] at h
  split_ifs at h
  · simp at h
  · simp at h
  · rw [Prod.mk.injEq] at h
    exact drawAndEncode_ok_fields _ _ _ _ _ _ _ h.1
  · rw [Prod.mk.injEq] at h
    exact drawAndEncode_ok_fields _ _ _ _ _ _ _ h.1
  · simp at h

/-- C9: a conversion attempted with no current file and no preview source
fails at once with the fixed message, and the outcome does not depend on
any of the downstream oracles (draw, encode, auxiliary load), so no
dimension resolution result, canvas drawing or encoding is consulted. -/
theorem C9_no_image (inp : ConvertInputs) (orc : Oracles)
    (hf : inp.currentFile = none) (hs : inp.previewSrc = "") :
    convert inp orc = (Except.error ConvError.noImage, 0) ∧
    errorMessage ConvError.noImage = "Choose or drop an image first." ∧
    ∀ orc2 : Oracles, convert inp orc2 = convert inp orc := by
  refine ⟨?_, rfl, ?_⟩
  · simp [convert, hf, hs]
  · intro orc2
    simp [convert, hf, hs]

/-- C4: a conversion attempted while the merged natural width or height is
zero (decode not finished) fails fast with the not-ready error and returns
an error, never an artifact. -/
theorem C4_not_ready (inp : ConvertInputs) (orc : Oracles)
    (hf : ¬(inp.currentFile = none ∧ inp.previewSrc = ""))
    (hdim : jsOrNat inp.previewNaturalW inp.imgNaturalW = 0 ∨
        jsOrNat inp.previewNaturalH inp.imgNaturalH = 0) :
    convert inp orc = (Except.error ConvError.notReady, 0) := by
  rcases hdim with h | h <;> simp [convert, hf, h]

/-- C7: the conversion handler always returns an outcome, performs at most
one auxiliary image load, and performs none when the preview is already
complete with a known width. -/
theorem C7_single_retry (inp : ConvertInputs) (orc : Oracles) :
    (convert inp orc).2 ≤ 1 ∧
    (inp.previewComplete = true ∧ inp.previewNaturalW ≠ 0 →
        (convert inp orc).2 = 0) := by
  constructor
  · simp only [convert]
    split_ifs <;> simp
  · intro h
    simp only [convert]
    split_ifs <;> simp_all

/-- C6: when the encoder yields no bytes (toBlob delivers a null blob) on
a conversion that reaches the encode step, the handler reports the
empty-blob failure and triggers no download (the outcome is an error, so
no artifact is handed to triggerDownload). -/
theorem C6_encode_empty (inp : ConvertInputs) (orc : Oracles)
    (hf : ¬(inp.currentFile = none ∧ inp.previewSrc = ""))
    (hW : jsOrNat inp.previewNaturalW inp.imgNaturalW ≠ 0)
    (hH : jsOrNat inp.previewNaturalH inp.imgNaturalH ≠ 0)
    (hdraw : orc.drawOk = true)
    (hreach : (inp.previewComplete = true ∧ inp.previewNaturalW ≠ 0) ∨
        orc.tempLoadOk = true)
    (henc : orc.encodeResult = none) :
    (convert inp orc).1 = Except.error ConvError.encodeFailure := by
  have hde : ∀ ot : String, ∀ tw th : ℤ, ∀ q : ℚ,
      drawAndEncode inp.currentFile orc ot tw th q
        = Except.error ConvError.encodeFailure := by
    intro ot tw th q
    simp [drawAndEncode, hdraw, henc]
  rcases hreach with hc | ht
  · simp [convert, hf, hW, hH, hc, hde]
  · by_cases hc : inp.previewComplete = true ∧ inp.previewNaturalW ≠ 0
    · simp [convert, hf, hW, hH, hc, hde]
    · simp [convert, hf, hW, hH, hc, ht, hde]

/-- C8: an empty format selection resolves to image/png, which is then
both the MIME type handed to the encoder and the type the download
extension is derived from. -/
theorem C8_default_format (inp : ConvertInputs) (orc : Oracles)
    (hfmt : inp.formatValue = "") :
    resolveOutType inp.formatValue = "image/png" ∧
    mimeToExt "image/png" = "png" ∧
    ∀ a n, convert inp orc = (Except.ok a, n) →
      a.mime = "image/png" ∧
      a.filename = deriveFilename inp.currentFile "image/png" := by
  have hr : resolveOutType inp.formatValue = "image/png" := by
    simp [resolveOutType, hfmt]
  refine ⟨hr, by decide, ?_⟩
  intro a n h
  obtain ⟨h1, h2⟩ := convert_ok_fields inp orc a n h
  rw [hr] at h1 h2
  exact ⟨h1, h2⟩

/-- A concrete happy-path DOM state: an 800 by 600 png named cat.png with
a complete preview, empty format selection and absent quality and width
inputs. -/
def sampleInputs : ConvertInputs :=
  ⟨some ⟨"image/png", "cat.png"⟩, "data:cat", "", none, none,
    800, 600, 0, 0, true⟩

/-- Oracles of a fully successful run: draw succeeds and toBlob delivers
a 5-byte blob. -/
def sampleOracles : Oracles := ⟨true, some 5, true⟩

/-- A DOM state whose preview has not decoded yet: dimensions zero,
preview incomplete. -/
def samplePending : ConvertInputs :=
  ⟨some ⟨"image/png", "cat.png"⟩, "data:cat", "", none, none,
    0, 0, 0, 0, false⟩

/-- Oracles of a run whose encode step yields a null blob. -/
def sampleNullBlob : Oracles := ⟨true, none, true⟩

/-- An empty DOM state: nothing loaded, no preview source. -/
def sampleEmpty : ConvertInputs := ⟨none, "", "", none, none, 0, 0, 0, 0, false⟩

/-- Witness for C9: the empty state fails with the no-image error. -/
theorem C9_no_image_witness :
    convert sampleEmpty sampleOracles = (Except.error ConvError.noImage, 0) ∧
    errorMessage ConvError.noImage = "Choose or drop an image first." :=
  ⟨(C9_no_image sampleEmpty sampleOracles rfl rfl).1,
   (C9_no_image sampleEmpty sampleOracles rfl rfl).2.1⟩

/-- Witness for C4: a pending decode fails with the not-ready error. -/
theorem C4_not_ready_witness :
    convert samplePending sampleOracles = (Except.error ConvError.notReady, 0) :=
  C4_not_ready samplePending sampleOracles (by decide) (Or.inl rfl)

/-- Witness for C7: the happy-path run performs no auxiliary load. -/
theorem C7_single_retry_witness :
    (convert sampleInputs sampleOracles).2 = 0 :=
  (C7_single_retry sampleInputs sampleOracles).2 ⟨rfl, by decide⟩

/-- Witness for C6: a null blob on the happy path yields the empty-blob
failure. -/
theorem C6_encode_empty_witness :
    (convert sampleInputs sampleNullBlob).1 = Except.error ConvError.encodeFailure :=
  C6_encode_empty sampleInputs sampleNullBlob (by decide) (by decide) (by decide)
    rfl (Or.inl ⟨rfl, by decide⟩) rfl

/-- Witness for C8: the happy-path run with empty format selection encodes
as image/png and downloads cat.png. -/
theorem C8_default_format_witness :
    (⟨"image/png", 800, 600, blobQuality 90, "cat.png", 5⟩ : Artifact).mime
      = "image/png" ∧
    (⟨"image/png", 800, 600, blobQuality 90, "cat.png", 5⟩ : Artifact).filename
      = deriveFilename sampleInputs.currentFile "image/png" :=
  (C8_default_format sampleInputs sampleOracles rfl).2.2
    ⟨"image/png", 800, 600, blobQuality 90, "cat.png", 5⟩ 0 rfl

/-- takeWhile runs past a first block that satisfies the predicate
throughout. -/
lemma takeWhile_append_all {p : Char → Bool} (l₁ l₂ : List Char)
    (h : ∀ c ∈ l₁, p c = true) :
    (l₁ ++ l₂).takeWhile p = l₁ ++ l₂.takeWhile p := by
  induction l₁ with
  | nil => simp
  | cons c cs ih =>
      have hc : p c = true := h c (by simp)
      have hcs : ∀ x ∈ cs, p x = true := fun x hx => h x (by simp [hx])
      simp [List.takeWhile_cons, hc, ih hcs]

/-- The regex strip removes exactly the final dot-extension when the
extension characters are nonempty and contain no dot and no slash. -/
lemma stripExtList_append (base ext : List Char) (hne : ext ≠ [])
    (hc : ∀ c ∈ ext, c ≠ '.' ∧ c ≠ '/') :
    stripExtList (base ++ '.' :: ext) = base := by
  have hall : ∀ c ∈ ext.reverse, (c != '.' && c != '/') = true := by
    intro c hmem
    obtain ⟨h1, h2⟩ := hc c (List.mem_reverse.mp hmem)
    simp [h1, h2]
  have hrev : (base ++ '.' :: ext).reverse = ext.reverse ++ '.' :: base.reverse := by
    simp
  have htw : (ext.reverse ++ '.' :: base.reverse).takeWhile
      (fun c => c != '.' && c != '/') = ext.reverse := by
    rw [takeWhile_append_all _ _ hall]
    simp [List.takeWhile_cons]
  have hdrop : (ext.reverse ++ '.' :: base.reverse).drop ext.reverse.length
      = '.' :: base.reverse := by
    rw [List.drop_left]
  simp only [stripExtList, hrev, htw, hdrop]
  have : ext.reverse.isEmpty = false := by
    simp [List.isEmpty_iff, hne]
  rw [this]
  simp

/-- A string built from a list holding a dot is never empty. -/
lemma mk_dotted_ne_empty (base ext : List Char) :
    (⟨base ++ '.' :: ext⟩ : String) ≠ "" := by
  intro h
  have := congrArg String.data h
  simp at this

/-- C5: the derived output filename strips the last extension segment of
the original filename and appends the extension mapped from the output
format (jpeg to jpg, png to png, webp to webp, anything else to the
fallback img); with no original filename, the fixed fallback base
converted-image is used.  The first conjunct covers an arbitrary filename
ending in a dot-extension, and the last three are the concrete examples of
the claim. -/
theorem C5_filename_derivation :
    (∀ (base ext : List Char) (mime : String), ext ≠ [] →
        (∀ c ∈ ext, c ≠ '.' ∧ c ≠ '/') →
        deriveFilename (some ⟨"image/png", ⟨base ++ '.' :: ext⟩⟩) mime
          = (⟨base⟩ : String) ++ "." ++ mimeToExt mime) ∧
    (∀ mime : String, deriveFilename none mime
        = "converted-image" ++ "." ++ mimeToExt mime) ∧
    mimeToExt "image/jpeg" = "jpg" ∧ mimeToExt "image/png" = "png" ∧
    mimeToExt "image/webp" = "webp" ∧
    (∀ mime : String, mime ≠ "image/jpeg" → mime ≠ "image/png" →
        mime ≠ "image/webp" → mimeToExt mime = "img") ∧
    deriveFilename (some ⟨"image/png", "photo.png"⟩) "image/webp" = "photo.webp" ∧
    deriveFilename (some ⟨"image/png", "noext"⟩) "image/png" = "noext.png" ∧
    deriveFilename none "image/jpeg" = "converted-image.jpg" := by
  refine ⟨?_, fun mime => rfl, rfl, rfl, rfl, ?_, by decide, by decide, by decide⟩
  · intro base ext mime hne hc
    simp only [deriveFilename, if_neg (mk_dotted_ne_empty base ext)]
    have : stripExt ⟨base ++ '.' :: ext⟩ = (⟨base⟩ : String) := by
      simp only [stripExt]
      exact congrArg String.mk (stripExtList_append base ext hne hc)
    rw [this]
  · intro mime h1 h2 h3
    simp [mimeToExt, h1, h2, h3]

/-- Witness for C5: a one-letter base with a one-letter extension, and a
MIME type outside the mapped set. -/
theorem C5_filename_derivation_witness :
    deriveFilename (some ⟨"image/png", ⟨[ 'a' ] ++ '.' :: [ 'b' ]⟩⟩) "image/png"
      = (⟨[ 'a' ]⟩ : String) ++ "." ++ mimeToExt "image/png" ∧
    mimeToExt "text/plain" = "img" :=
  ⟨C5_filename_derivation.1 [ 'a' ] [ 'b' ] "image/png" (by decide) (by decide),
   C5_filename_derivation.2.2.2.2.2.1 "text/plain" (by decide) (by decide) (by decide)⟩

end ImageConverter
